import Mathlib

/-!
Verification of the Framecut detection engine.

This file gives a shallow embedding, in Lean 4, of the detection engine of
the `framecut` repository and proves properties of it:

* the statistical content classifier (`video_analyzer.py`:
  `check_condition`, `check_all_conditions`, `detect_profile`),
* the telemetry nearest-timestamp matcher (`metadata_processor.py`:
  `find_srt_telemetry`), including a direct embedding of its telemetry
  regular expression via a small backtracking regex interpreter,
* the device/profile catalog (`device_settings.py`, `color_profiles.py`),
* the detection orchestrator (`video_analyzer.py`:
  `detect_color_profile_from_all_sources`, `detect_color_profile`,
  `detect_device_from_video`, `detect_device_type`).

Modelling conventions:

* Python `float` arithmetic on timestamps, statistics and thresholds is
  embedded as exact rational arithmetic (`ℚ`); the Python `decimal.Decimal`
  values of telemetry records are likewise embedded as `ℚ` (both are exact
  on every value this development evaluates).
* File I/O is outside the model: a file already read becomes a `List String`
  of its lines; the external frame-statistics and `ffprobe`/`exiftool`
  collaborators become explicit parameters.
* A Python exception escaping to a `try`/`except` that re-raises becomes
  `Except Unit`; an exception converted to a soft "not found" becomes
  `Option`.
-/

/-! ## Python string primitives

Character-list implementations of the Python `str` operations the source
uses (`in`, `split`, `split(sep)`, `strip`, `lower`, `upper`, `replace`).
All inputs handled by the source are ASCII, where `Char.toLower`/`toUpper`
agree with Python `str.lower`/`str.upper`. -/

/-- Does `needle` occur as a prefix of `hay`? -/
def startsWithChars : List Char → List Char → Bool
  | [], _ => true
  | _ :: _, [] => false
  | c :: cs, h :: hs => c = h && startsWithChars cs hs

/-- Does `needle` occur as a contiguous substring of `hay`?
Models Python `needle in hay`. -/
def containsChars : List Char → List Char → Bool
  | [], needle => needle.isEmpty
  | h :: hs, needle => startsWithChars needle (h :: hs) || containsChars hs needle

/-- Python `sub in hay`. -/
def pyContains (hay sub : String) : Bool :=
  containsChars hay.toList sub.toList

/-- Python `s.lower()` (ASCII). -/
def toLowerStr (s : String) : String :=
  String.mk (s.toList.map Char.toLower)

/-- Python `s.upper()` (ASCII). -/
def toUpperStr (s : String) : String :=
  String.mk (s.toList.map Char.toUpper)

/-- Python `s.strip()`: drop whitespace at both ends. -/
def pyStrip (s : String) : String :=
  String.mk (((s.toList.dropWhile Char.isWhitespace).reverse.dropWhile Char.isWhitespace).reverse)

/-- Worker for `pySplitWs`: split on whitespace runs, dropping empties. -/
def wsplitGo : List Char → List Char → List String
  | [], acc => if acc.isEmpty then [] else [String.mk acc.reverse]
  | c :: cs, acc =>
    if c.isWhitespace then
      if acc.isEmpty then wsplitGo cs [] else String.mk acc.reverse :: wsplitGo cs []
    else wsplitGo cs (c :: acc)

/-- Python `s.split()` with no argument: split on whitespace runs. -/
def pySplitWs (s : String) : List String :=
  wsplitGo s.toList []

/-- Worker for `pySplitChar`. -/
def splitCharGo (sep : Char) : List Char → List Char → List String
  | [], acc => [String.mk acc.reverse]
  | c :: cs, acc =>
    if c = sep then String.mk acc.reverse :: splitCharGo sep cs []
    else splitCharGo sep cs (c :: acc)

/-- Python `s.split(sep)` for a one-character separator: keeps empty parts,
never returns an empty list. -/
def pySplitChar (s : String) (sep : Char) : List String :=
  splitCharGo sep s.toList []

/-- Python `s.replace(a, b)` for one-character `a`, `b`. -/
def pyReplaceChar (s : String) (a b : Char) : String :=
  String.mk (s.toList.map fun c => if c = a then b else c)

/-! ## Python numeric conversions -/

/-- Numeric value of a digit string (no validation). -/
def natOfDigits (ds : List Char) : Nat :=
  ds.foldl (fun n c => n * 10 + (c.toNat - 48)) 0

/-- `some n` when `ds` is a nonempty string of decimal digits. -/
def digitsVal (ds : List Char) : Option Nat :=
  if ds.isEmpty then none
  else if ds.all Char.isDigit then some (natOfDigits ds) else none

/-- Python `int(s)`: optional surrounding whitespace, optional sign, decimal
digits; anything else raises `ValueError`, modelled as `none`.
(Digit-group underscores, irrelevant to the source's inputs, are refused.) -/
def pyInt (s : String) : Option Int :=
  match (pyStrip s).toList with
  | '-' :: ds => (digitsVal ds).map fun n => -(n : Int)
  | '+' :: ds => (digitsVal ds).map fun n => (n : Int)
  | ds => (digitsVal ds).map fun n => (n : Int)

/-- Python `decimal.Decimal(s)` as an exact rational: optional surrounding
whitespace, optional sign, `digits`, `digits.digits`, `.digits` or `digits.`;
the exponent forms, unreachable from the source's regex-shaped inputs, are
refused (`none` models the raised `InvalidOperation`). -/
def pyDecimalBody (t : List Char) : Option ℚ :=
  match pySplitChar (String.mk t) '.' with
  | [ip] => (digitsVal ip.toList).map fun n => (n : ℚ)
  | [ip, fp] =>
    if (ip.toList.all Char.isDigit && fp.toList.all Char.isDigit)
        && !(ip.isEmpty && fp.isEmpty) then
      some (((natOfDigits ip.toList : ℚ) * 10 ^ fp.length + natOfDigits fp.toList) / 10 ^ fp.length)
    else none
  | _ => none

/-- Python `decimal.Decimal(s)` as an exact rational (sign handling). -/
def pyDecimal (s : String) : Option ℚ :=
  match (pyStrip s).toList with
  | '-' :: rest => (pyDecimalBody rest).map fun q => -q
  | '+' :: rest => pyDecimalBody rest
  | rest => pyDecimalBody rest

/-! ## A small backtracking regex interpreter

`metadata_processor.py` compiles two patterns with Python `re`:
`tele_re` (with `re.IGNORECASE`) and `time_re`. The abstract syntax below
covers exactly the constructs those patterns use; `reRun` is a standard
backtracking matcher in continuation-passing style whose preference order
(leftmost alternative first, greedy quantifiers longest-first, lazy
quantifiers shortest-first) is that of Python's `re` engine. Literal
characters compare case-insensitively, matching `re.IGNORECASE`
(`time_re` contains no cased character, so this is harmless for it).
The `Nat` fuel argument only forces termination; `reFuel` is far larger
than the interpreter's recursion depth, which is bounded by the pattern
size plus the number of characters consumed. -/

inductive RE where
  /-- empty pattern -/
  | eps : RE
  /-- literal character (case-insensitive, as under `re.IGNORECASE`) -/
  | lit : Char → RE
  /-- `.` (any character except newline; `re.DOTALL` is not set) -/
  | anyc : RE
  /-- `\d` -/
  | digitc : RE
  /-- `\s` -/
  | spacec : RE
  /-- `[^]]` -/
  | notRb : RE
  | seq : RE → RE → RE
  /-- `a|b`, preferring `a` -/
  | alt : RE → RE → RE
  /-- greedy `a*` -/
  | star : RE → RE
  /-- lazy `a*?` -/
  | starL : RE → RE
  /-- greedy `a+` -/
  | plus : RE → RE
  /-- greedy `a?` -/
  | opt : RE → RE
  /-- named capture group `(?P<n>a)` -/
  | grp : String → RE → RE
deriving Repr

/-- Captured named groups, in order of completion. -/
abbrev Caps := List (String × String)

/-- Backtracking matcher: match `re` against a prefix of `cs`, then invoke
the continuation `k` on the captures so far and the remaining input; the
first branch (in the engine's preference order) on which `k` succeeds wins. -/
def reRun (fuel : Nat) (re : RE) (cs : List Char) (g : Caps)
    (k : Caps → List Char → Option Caps) : Option Caps :=
  match fuel with
  | 0 => none
  | f + 1 =>
    match re with
    | .eps => k g cs
    | .lit c =>
      match cs with
      | [] => none
      | x :: xs => if x.toLower = c.toLower then k g xs else none
    | .anyc =>
      match cs with
      | [] => none
      | x :: xs => if x = '\n' then none else k g xs
    | .digitc =>
      match cs with
      | [] => none
      | x :: xs => if x.isDigit then k g xs else none
    | .spacec =>
      match cs with
      | [] => none
      | x :: xs => if x.isWhitespace then k g xs else none
    | .notRb =>
      match cs with
      | [] => none
      | x :: xs => if x = ']' then none else k g xs
    | .seq a b => reRun f a cs g fun g2 r => reRun f b r g2 k
    | .alt a b =>
      match reRun f a cs g k with
      | some res => some res
      | none => reRun f b cs g k
    | .star a =>
      match reRun f a cs g
          (fun g2 r => if r.length < cs.length then reRun f (.star a) r g2 k else none) with
      | some res => some res
      | none => k g cs
    | .starL a =>
      match k g cs with
      | some res => some res
      | none =>
        reRun f a cs g
          fun g2 r => if r.length < cs.length then reRun f (.starL a) r g2 k else none
    | .plus a => reRun f a cs g fun g2 r => reRun f (.star a) r g2 k
    | .opt a =>
      match reRun f a cs g k with
      | some res => some res
      | none => k g cs
    | .grp n a =>
      reRun f a cs g
        fun g2 r => k (g2 ++ [(n, String.mk (cs.take (cs.length - r.length)))]) r

/-- Fuel comfortably above the interpreter's actual recursion depth. -/
def reFuel (cs : List Char) : Nat :=
  cs.length + 2000

/-- `re.match` restricted to success/failure: match at the start of `s`
(a prefix match, not necessarily the whole string). -/
def reMatchStart (re : RE) (s : String) : Bool :=
  (reRun (reFuel s.toList) re s.toList [] fun g _ => some g).isSome

/-- Worker for `reSearch`: try each start position, leftmost first. -/
def searchAux (re : RE) : List Char → Option Caps
  | [] => reRun (reFuel []) re [] [] fun g _ => some g
  | c :: cs =>
    match reRun (reFuel (c :: cs)) re (c :: cs) [] fun g _ => some g with
    | some g => some g
    | none => searchAux re cs

/-- `re.search`: the captures of the match at the leftmost start position
at which the pattern matches, or `none`. -/
def reSearch (re : RE) (s : String) : Option Caps :=
  searchAux re s.toList

/-- The last capture recorded for group `n` (each group of `tele_re`
captures at most once, so first/last is immaterial). -/
def getGroup (g : Caps) (n : String) : Option String :=
  (g.find? fun p => p.1 = n).map Prod.snd

/-! ### The two patterns of `metadata_processor.py` -/

/-- Concatenation of a list of patterns. -/
def reCat (l : List RE) : RE :=
  l.foldr RE.seq RE.eps

/-- A string as a pattern of literal characters. -/
def rstr (s : String) : RE :=
  reCat (s.toList.map RE.lit)

/-- `n` repetitions of a pattern (`a{n}`). -/
def reRep (n : Nat) (a : RE) : RE :=
  reCat (List.replicate n a)

/-- `\s*` -/
def reWs : RE := RE.star RE.spacec

/-- `\d+` -/
def reDigits : RE := RE.plus RE.digitc

/-- `.*?` -/
def reLazyAny : RE := RE.starL RE.anyc

/-- `\s*:\s*` -/
def reColon : RE := reCat [reWs, RE.lit ':', reWs]

/-- `\[kw\s*:\s*` -/
def reKey (kw : String) : RE := reCat [rstr ("[" ++ kw), reColon]

/-- `-?\d+` -/
def reInt : RE := reCat [RE.opt (RE.lit '-'), reDigits]

/-- `-?\d+\.\d+` -/
def reDec : RE := reCat [RE.opt (RE.lit '-'), reDigits, RE.lit '.', reDigits]

/-- The telemetry pattern `tele_re` of `find_srt_telemetry`
(`metadata_processor.py` lines 46-59), constructor by constructor:

    \[iso\s*:\s*(?P<iso>\d+)].*?
    \[shutter\s*:\s*(?P<shut>[^]]+)].*?
    \[fnum\s*:\s*(?P<fnum>\d+)].*?
    \[ev\s*:\s*(?P<ev>-?\d+\.\d+|\-?\d+)].*?
    (?:\[ct\s*:\s*\d+].*?)?
    (?:\[color_md\s*:\s*[^]]+].*?)?
    \[focal_len\s*:\s*(?P<flen>\d+)].*?
    (?:\[dzoom_ratio\s*:\s*\d+,\s*delta\s*:\s*\d+].*?)?
    \[(?:latitude|lat)\s*:\s*(?P<lat>-?\d+\.\d+)].*?
    \[(?:longitude|long)\s*:\s*(?P<lon>-?\d+\.\d+)].*?
    (?:abs_alt|altitude)\s*:\s*(?P<abs_alt>-?\d+\.\d+)
-/
def tele_re : RE :=
  reCat [
    reKey "iso", RE.grp "iso" reDigits, RE.lit ']', reLazyAny,
    reKey "shutter", RE.grp "shut" (RE.plus RE.notRb), RE.lit ']', reLazyAny,
    reKey "fnum", RE.grp "fnum" reDigits, RE.lit ']', reLazyAny,
    reKey "ev", RE.grp "ev" (RE.alt reDec reInt), RE.lit ']', reLazyAny,
    RE.opt (reCat [reKey "ct", reDigits, RE.lit ']', reLazyAny]),
    RE.opt (reCat [reKey "color_md", RE.plus RE.notRb, RE.lit ']', reLazyAny]),
    reKey "focal_len", RE.grp "flen" reDigits, RE.lit ']', reLazyAny,
    RE.opt (reCat [reKey "dzoom_ratio", reDigits, RE.lit ',', reWs,
                   rstr "delta", reColon, reDigits, RE.lit ']', reLazyAny]),
    RE.lit '[', RE.alt (rstr "latitude") (rstr "lat"), reColon,
    RE.grp "lat" reDec, RE.lit ']', reLazyAny,
    RE.lit '[', RE.alt (rstr "longitude") (rstr "long"), reColon,
    RE.grp "lon" reDec, RE.lit ']', reLazyAny,
    RE.alt (rstr "abs_alt") (rstr "altitude"), reColon, RE.grp "abs_alt" reDec]

/-- The absolute-date pattern `time_re` of `find_srt_telemetry`:
`\d{4}-\d{2}-\d{2} \d{2}:\d{2}:\d{2}`. -/
def time_re : RE :=
  reCat [reRep 4 RE.digitc, RE.lit '-', reRep 2 RE.digitc, RE.lit '-',
         reRep 2 RE.digitc, RE.lit ' ', reRep 2 RE.digitc, RE.lit ':',
         reRep 2 RE.digitc, RE.lit ':', reRep 2 RE.digitc]

/-! ## The telemetry nearest-timestamp matcher

Embedding of `MetadataProcessor.find_srt_telemetry`
(`metadata_processor.py` lines 24-158). The SRT file is given as its list
of lines (`Path.read_text().splitlines()` already performed; a missing
file is reported as `None` before this point and structural read failures
are outside the pure model). `datetime.utcnow()` is abstracted into a
parameter `now`, a string in the `%Y-%m-%d %H:%M:%S` format the source
would produce. A raised `MetadataError` (any exception reaching the
`except` at line 156) is `Except.error ()`; the soft "not found" results
are `Except.ok none`. -/

/-- Tolerance window: `window = 0.20  # Default tolerance in seconds`. -/
def window : ℚ := 1/5

/-- Shared core of the `HH:MM:SS.mmm` / `HH:MM:SS,mmm` timestamp
arithmetic: `ss, ms = sms.replace(',', '.').split('.')` followed by
`int(hh)*3600 + int(mm)*60 + int(ss) + int(ms)/1000`. `none` models a
raised `ValueError` (wrong number of parts or non-integer part). -/
def parse_hms (hh mm sms : String) : Option ℚ :=
  match pySplitChar (pyReplaceChar sms ',' '.') '.' with
  | [ss, ms] => do
    let h ← pyInt hh
    let m ← pyInt mm
    let s ← pyInt ss
    let k ← pyInt ms
    pure ((h : ℚ) * 3600 + (m : ℚ) * 60 + (s : ℚ) + (k : ℚ) / 1000)
  | _ => none

/-- `utils.parse_timestamp`: `h, m, sm = timestamp.split(':')` then the
shared arithmetic; `none` models the raised `ValueError`. -/
def parse_timestamp (timestamp : String) : Option ℚ :=
  match pySplitChar timestamp ':' with
  | [h, m, sm] => parse_hms h m sm
  | _ => none

/-- Start-time of an SRT time-range marker line:
`hh, mm, sms = lines[i].split()[0].split(':')` then the shared arithmetic
(`find_srt_telemetry` lines 81-83). `none` models a raised exception. -/
def parseMarkerTime (line : String) : Option ℚ :=
  match pySplitWs line with
  | [] => none
  | first :: _ =>
    match pySplitChar first ':' with
    | [hh, mm, sms] => parse_hms hh mm sms
    | _ => none

/-- The inner `for j in range(1, 6)` loop of `find_srt_telemetry`
(lines 87-97) over the stripped lines after a marker: update the date line
on a `time_re` prefix match, stop at the first line containing `[iso`
(case-insensitively); returns `(date_line, tele_line)`. -/
def scanTele : List String → Option String → Option String × Option String
  | [], d => (d, none)
  | l :: ls, d =>
    let txt := pyStrip l
    let d2 := if reMatchStart time_re txt then some ((pySplitChar txt '.').headD "") else d
    if pyContains (toLowerStr txt) "[iso" then (d2, some txt) else scanTele ls d2

/-- The candidate found at one marker: its absolute time difference to the
target, its telemetry line and its optional date line (the tuple
`(diff, tele_line, date_line)` of the source). -/
structure Best where
  diff : ℚ
  tele : String
  date : Option String
deriving DecidableEq, Repr

/-- The main `while i < len(lines)` scan of `find_srt_telemetry`
(lines 73-101): skip lines without `' --> '`, parse each marker's start
time (an unparsable marker raises, modelled as `Except.error ()`), look for
a telemetry line within the next five lines, and keep the candidate only
when its difference is strictly smaller than the current best's. -/
def scanLoop (target : ℚ) : List String → Option Best → Except Unit (Option Best)
  | [], best => .ok best
  | l :: rest, best =>
    if pyContains l " --> " then
      match parseMarkerTime l with
      | none => .error ()
      | some t =>
        let diff := abs (t - target)
        let dt := scanTele (rest.take 5) none
        let best2 :=
          match dt.2, best with
          | some tl, none => some ⟨diff, tl, dt.1⟩
          | some tl, some b => if diff < b.diff then some ⟨diff, tl, dt.1⟩ else some b
          | none, b => b
        scanLoop target rest best2
    else scanLoop target rest best

/-- The update step of the scan: `best` is replaced exactly when it is
absent or the new candidate's difference is strictly smaller. -/
def updBest (best : Option Best) (c : Best) : Option Best :=
  match best with
  | none => some c
  | some b => if c.diff < b.diff then some c else some b

/-- The ordered list of candidates the scan considers: one per marker line
whose next five lines contain a telemetry line. `Except.error ()` when some
marker line fails to parse. -/
def candidates (target : ℚ) : List String → Except Unit (List Best)
  | [] => .ok []
  | l :: rest =>
    if pyContains l " --> " then
      match parseMarkerTime l with
      | none => .error ()
      | some t =>
        match (scanTele (rest.take 5) none).2 with
        | some tl =>
          (candidates target rest).map
            (List.cons ⟨abs (t - target), tl, (scanTele (rest.take 5) none).1⟩)
        | none => candidates target rest
    else candidates target rest

/-- `datetime.strptime(s, '%Y-%m-%d %H:%M:%S')` success, on the shapes
reachable here (a `time_re`-matching prefix plus possible dot-free junk):
exactly `YYYY-MM-DD HH:MM:SS` with in-range fields. Calendar
day-in-month validation is omitted; no claim depends on it. -/
def strptimeOk (s : String) : Bool :=
  match s.toList with
  | [y1, y2, y3, y4, c1, m1, m2, c2, d1, d2, c3, h1, h2, c4, i1, i2, c5, s1, s2] =>
    (c1 = '-' && c2 = '-' && c3 = ' ' && c4 = ':' && c5 = ':') &&
    [y1, y2, y3, y4, m1, m2, d1, d2, h1, h2, i1, i2, s1, s2].all Char.isDigit &&
    (let mo := natOfDigits [m1, m2]
     let dd := natOfDigits [d1, d2]
     let hh := natOfDigits [h1, h2]
     let mi := natOfDigits [i1, i2]
     let se := natOfDigits [s1, s2]
     decide (1 ≤ mo ∧ mo ≤ 12 ∧ 1 ≤ dd ∧ dd ≤ 31 ∧ hh ≤ 23 ∧ mi ≤ 59 ∧ se ≤ 61))
  | _ => false

/-- `strftime('%Y:%m:%d %H:%M:%S')` of a date parsed from the
zero-padded `%Y-%m-%d %H:%M:%S` shape: the two dashes become colons. -/
def dashToColons (s : String) : String :=
  String.mk (s.toList.map fun c => if c = '-' then ':' else c)

/-- A parsed telemetry record (the dictionary built at lines 127-147).
`fnumber` and `focal_length` are `decimal.Decimal` values, embedded
exactly as rationals. -/
structure Telemetry where
  iso : String
  shutter : String
  fnumber : ℚ
  ev : String
  focal_length : ℚ
  latitude : String
  latitude_ref : String
  longitude : String
  longitude_ref : String
  altitude : Option String
  altitude_ref : String
  datetime : String
  date_str : String
deriving DecidableEq, Repr

/-- The `'0' if altitude and decimal.Decimal(altitude) >= 0 else '1'`
computation (line 138): `none` models a raised conversion exception. -/
def altitudeRef : Option String → Option String
  | some a => (pyDecimal a).map fun q => if 0 ≤ q then "0" else "1"
  | none => some "1"

/-- Construction of the telemetry dictionary from the matched groups and
the date line (lines 119-147). `none` models an exception raised by a
missing group or failed conversion while evaluating the dictionary literal
(unreachable when the groups come from `tele_re`); `now` stands for
`datetime.utcnow()` in `%Y-%m-%d %H:%M:%S` format. -/
def mkTelemetry (caps : Caps) (date_line now : String) : Option Telemetry :=
  match getGroup caps "iso", getGroup caps "shut", getGroup caps "fnum",
        getGroup caps "ev", getGroup caps "flen", getGroup caps "lat",
        getGroup caps "lon" with
  | some iso, some shut, some fnum, some ev, some flen, some lat, some lon =>
    let altitude : Option String :=
      match getGroup caps "abs_alt" with
      | some a => if a.isEmpty then none else some a
      | none => none
    match pyDecimal fnum, pyDecimal flen, pyDecimal lat, pyDecimal lon,
          altitudeRef altitude with
    | some fnumQ, some flenQ, some latQ, some lonQ, some altRef =>
      some {
        iso := iso
        shutter := (pySplitChar shut '.').headD ""
        fnumber := fnumQ / 100
        ev := ev
        focal_length := flenQ / 10
        latitude := lat
        latitude_ref := if 0 ≤ latQ then "N" else "S"
        longitude := lon
        longitude_ref := if 0 ≤ lonQ then "E" else "W"
        altitude := altitude
        altitude_ref := altRef
        datetime := date_line
        date_str := if strptimeOk date_line then dashToColons date_line else dashToColons now
      }
    | _, _, _, _, _ => none
  | _, _, _, _, _, _, _ => none

/-- `find_srt_telemetry` for an already-read log and an already-parsed
target (`target_seconds = parse_timestamp(target_timestamp)`): scan for
the best candidate, reject it beyond the tolerance window, parse its
telemetry line with `tele_re` — an unrecognized line yields "not found"
(`ok none`), never an error — and build the record. -/
def find_srt_telemetry (lines : List String) (target_seconds : ℚ) (now : String) :
    Except Unit (Option Telemetry) :=
  match scanLoop target_seconds lines none with
  | .error e => .error e
  | .ok none => .ok none
  | .ok (some b) =>
    if b.diff > window then .ok none
    else
      match reSearch tele_re b.tele with
      | none => .ok none
      | some caps =>
        match mkTelemetry caps (b.date.getD now) now with
        | none => .error ()
        | some t => .ok (some t)

/-! ## The statistical content classifier

Embedding of `VideoAnalyzer.check_condition`, `check_all_conditions` and
the rule-evaluation part of `detect_profile` (`video_analyzer.py` lines
413-464 and 526-559): the spec's `classifyFromStats`. Statistics samples
and rules keep the source's string-keyed dictionary shape. -/

/-- `MAX_SAT: float = 1.0` (`video_analyzer.py` line 30). -/
def MAX_SAT : ℚ := 1

/-- One min/max range constraint (the inner `{"min": ..., "max": ...}`
dictionary; each bound optional). -/
structure Condition where
  min : Option ℚ := none
  max : Option ℚ := none
deriving DecidableEq, Repr

/-- One detection rule: an ordered association of statistic names to
constraints (one `{"p90y": {...}, "satavg": {...}}` dictionary; a
conjunction). -/
abbrev Rule := List (String × Condition)

/-- First-match association-list lookup (Python dict subscript; keys are
unique in every dictionary the source builds). -/
def lookupStat : List (String × ℚ) → String → Option ℚ
  | [], _ => none
  | (k, v) :: rest, n => if k = n then some v else lookupStat rest n

/-- `'min' in condition and stat_value < condition['min']`. -/
def belowMin (v : ℚ) (c : Condition) : Bool :=
  match c.min with
  | some m => decide (v < m)
  | none => false

/-- `'max' in condition and stat_value > condition['max']`. -/
def aboveMax (v : ℚ) (c : Condition) : Bool :=
  match c.max with
  | some m => decide (v > m)
  | none => false

/-- `VideoAnalyzer.check_condition` (lines 413-433): fail when a declared
`min` exceeds the value or a declared `max` is below it, else pass. -/
def check_condition (stat_value : ℚ) (condition : Condition) : Bool :=
  if belowMin stat_value condition then false
  else if aboveMax stat_value condition then false
  else true

/-- `VideoAnalyzer.check_all_conditions` (lines 435-464): true when at
least one rule has every constraint satisfied (a statistic name absent
from the sample fails its rule); an empty rule list is false. -/
def check_all_conditions (conditions : List Rule) (stats : List (String × ℚ)) : Bool :=
  if conditions.isEmpty then false
  else
    conditions.any fun rule =>
      rule.all fun nc =>
        match lookupStat stats nc.1 with
        | none => false
        | some v => check_condition v nc.2

/-- Detection settings of a device for one bit-depth class: the
`{"default": ..., "profiles": {...}}` dictionary, `profiles` in declared
order. -/
structure BitDepthSettings where
  default : String
  profiles : List (String × List Rule)
deriving DecidableEq, Repr

/-- A device's `"detection"` dictionary: one `BitDepthSettings` per
bit-depth class. -/
structure DetectionSettings where
  eightBit : BitDepthSettings
  tenBit : BitDepthSettings
deriving DecidableEq, Repr

/-- `bit_category = "10bit" if bit_depth >= 10 else "8bit"` followed by the
dictionary lookup (lines 527-528). -/
def bitSettingsFor (detection : DetectionSettings) (bit_depth : Nat) : BitDepthSettings :=
  if bit_depth ≥ 10 then detection.tenBit else detection.eightBit

/-- The `for profile_name, conditions in device_bit_settings["profiles"].items()`
loop of `detect_profile` (lines 553-555): first profile whose rule set is
satisfied, in declared order. -/
def findMatch : List (String × List Rule) → List (String × ℚ) → Option String
  | [], _ => none
  | (p, conds) :: rest, stats =>
    if check_all_conditions conds stats then some p else findMatch rest stats

/-- The rule-evaluation phase of `detect_profile` (lines 526-559), the
spec's `classifyFromStats`: pick the bit-depth class, return its default
when no profiles are declared, else the first matching profile, else the
default. (The earlier metadata-based short cut and the statistics
collection are separate concerns, embedded elsewhere.) -/
def classifyFromStats (detection : DetectionSettings) (bit_depth : Nat)
    (norm_stats : List (String × ℚ)) : String :=
  let device_bit_settings := bitSettingsFor detection bit_depth
  let default_profile := device_bit_settings.default
  if device_bit_settings.profiles.isEmpty then default_profile
  else
    match findMatch device_bit_settings.profiles norm_stats with
    | some p => p
    | none => default_profile

/-- The normalization of raw statistics before rule evaluation
(lines 542-546). -/
def normStats (p90y satavg yavg max_luma : ℚ) : List (String × ℚ) :=
  [("p90y", p90y / max_luma), ("satavg", satavg / MAX_SAT), ("yavg", yavg / max_luma)]

/-! ## The device/profile catalog

Embedding of `color_profiles.BASE_DETECTION_CONDITIONS` and
`device_settings.DEVICES` (the supported-profile identifiers — the keys of
each device's `"profiles"` dictionary — and the `"detection"` trees; the
FFmpeg parameter payloads carried alongside are irrelevant to detection
and omitted). Dictionaries keep their declared key order. -/

/-- `BASE_DETECTION_CONDITIONS` (`color_profiles.py` lines 55-65). -/
def BASE_DETECTION_CONDITIONS : List (String × List Rule) :=
  [("d_cinelike", [[("satavg", { max := some 0.25 })]]),
   ("d_log", [[("p90y", { max := some 0.80 }), ("satavg", { max := some 0.30 })]]),
   ("hlg", [[("p90y", { min := some 0.88 })]])]

/-- `ProfileManager.get_detection_conditions` (`color_profiles.py`
lines 142-159): the base conditions for a profile, `[]` when none are
declared (validation of the profile name is a separate concern). -/
def get_detection_conditions (profile : String) : List Rule :=
  match BASE_DETECTION_CONDITIONS.find? fun p => p.1 = profile with
  | some p => p.2
  | none => []

/-- A device's catalog entry: make/model, supported profile identifiers in
declared order, detection settings. -/
structure Device where
  make : String
  model : String
  profiles : List String
  detection : DetectionSettings
deriving DecidableEq, Repr

/-- `DEVICES` (`device_settings.py` lines 16-116), keyed by the
`DeviceType` enum values. -/
def DEVICES : List (String × Device) :=
  [("DJI Mini 3 Pro",
    { make := "DJI", model := "Mini 3 Pro",
      profiles := ["normal", "d_cinelike"],
      detection :=
        { eightBit :=
            { default := "normal",
              profiles := [("d_cinelike", get_detection_conditions "d_cinelike")] },
          tenBit := { default := "d_cinelike", profiles := [] } } }),
   ("DJI Mavic 2 Pro",
    { make := "DJI", model := "Mavic 2 Pro",
      profiles := ["normal", "d_log", "hlg"],
      detection :=
        { eightBit := { default := "normal", profiles := [] },
          tenBit :=
            { default := "d_log",
              profiles := [("hlg", get_detection_conditions "hlg"),
                           ("d_log", get_detection_conditions "d_log")] } } }),
   ("DJI Osmo Action 5 Pro",
    { make := "DJI", model := "Osmo Action 5 Pro",
      profiles := ["normal", "d_log", "hlg"],
      detection :=
        { eightBit := { default := "normal", profiles := [] },
          tenBit :=
            { default := "normal",
              profiles :=
                [("hlg", [[("p90y", { min := some 0.85 }), ("satavg", { min := some 0.45 })]]),
                 ("d_log",
                  [[("p90y", { min := some 0.45, max := some 0.80 }),
                    ("satavg", { min := some 0.25, max := some 0.45 }),
                    ("yavg", { max := some 0.50 })],
                   [("p90y", { min := some 0.40, max := some 0.82 }),
                    ("yavg", { min := some 0.30, max := some 0.50 }),
                    ("satavg", { min := some 0.20 })]]) ] } } })]

/-- Every profile identifier a device's detection configuration refers to:
the two bit-depth-class defaults and the keys of both rule sets. -/
def referencedProfiles (d : Device) : List String :=
  [d.detection.eightBit.default, d.detection.tenBit.default] ++
    d.detection.eightBit.profiles.map Prod.fst ++
    d.detection.tenBit.profiles.map Prod.fst

/-! ## Container-metadata profile detection

Embedding of `color_profiles.METADATA_PROFILE_MAPPING`,
`ProfileManager.detect_from_metadata` and
`VideoAnalyzer.detect_profile_from_metadata`. -/

/-- Color metadata from the video container (`VideoMetadata` dataclass,
`video_analyzer.py` lines 41-47); `none` is Python `None`. -/
structure VideoMetadata where
  color_primaries : Option String := none
  color_transfer : Option String := none
  color_space : Option String := none
  dji_color_mode : Option String := none
deriving DecidableEq, Repr

/-- `METADATA_PROFILE_MAPPING` (`color_profiles.py` lines 68-77): note the
`("bt709", "bt709")` entry deliberately maps to `None`. -/
def METADATA_PROFILE_MAPPING : List ((String × String) × Option String) :=
  [(("bt2020", "arib-std-b67"), some "hlg"),
   (("bt2020", "log"), some "d_log"),
   (("bt709", "bt709"), none)]

/-- `ProfileManager.detect_from_metadata` (lines 161-180): `None` when
either tag is absent or empty, else the mapping entry for the lowercased
pair (`dict.get` with default `None`). -/
def detect_from_metadata (color_primaries color_transfer : Option String) : Option String :=
  match color_primaries, color_transfer with
  | some p, some t =>
    if p.isEmpty || t.isEmpty then none
    else
      match METADATA_PROFILE_MAPPING.find? fun e => e.1 = (toLowerStr p, toLowerStr t) with
      | some e => e.2
      | none => none
  | _, _ => none

/-- `VideoAnalyzer.detect_profile_from_metadata` (lines 466-488): DJI's
private color-mode tag first — with the D-Cinelike/Mavic 2 Pro veto
returning `None` outright — then the color-primaries/transfer mapping. -/
def detect_profile_from_metadata (metadata : VideoMetadata) (device_type : Option String) :
    Option String :=
  match metadata.dji_color_mode with
  | some cm =>
    if pyContains (toUpperStr cm) "D-CINELIKE" then
      if device_type = some "DJI Mavic 2 Pro" then none
      else some "d_cinelike"
    else if pyContains (toUpperStr cm) "NORMAL" then some "normal"
    else detect_from_metadata metadata.color_primaries metadata.color_transfer
  | none => detect_from_metadata metadata.color_primaries metadata.color_transfer

/-! ## The detection orchestrator

Embedding of `VideoAnalyzer.detect_color_profile_from_all_sources`,
`detect_color_profile`, `detect_device_from_video` and
`detect_device_type` (`video_analyzer.py`). External evidence appears as
parameters: the exiftool metadata dictionary (`Option ExifMetadata`, with
`none` for an empty/absent dictionary), the companion SRT file
(`Option (Except Unit String)`: absent, read-failed, or its lowercasable
text), and the statistics-driven `detect_profile` run
(`Except Unit String`, `error` for any exception it raises). -/

/-- The exiftool metadata fields the orchestrator reads (each defaults to
`""` via `metadata.get(..., "")`). -/
structure ExifMetadata where
  make : String := ""
  model : String := ""
  encoder : String := ""
  comment : String := ""
  category : String := ""
  description : String := ""
deriving DecidableEq, Repr

/-- `all_text = f"{comment} {category} {description} {encoder}".lower()`
with each field already lowercased (lines 611-617). -/
def allText (md : ExifMetadata) : String :=
  toLowerStr (toLowerStr md.comment ++ " " ++ toLowerStr md.category ++ " " ++
    toLowerStr md.description ++ " " ++ toLowerStr md.encoder)

/-- Python truthiness of the optional device-type string. -/
def deviceTruthy : Option String → Bool
  | none => false
  | some s => !s.isEmpty

/-- Step 1 of the orchestrator, the metadata-text matcher (lines 620-630):
ordered substring checks over `all_text`, with the D-Cinelike hit vetoed
(no assignment at all) when the device is the Mavic 2 Pro. `none` means
the step left `(color_profile, profile_source)` untouched. -/
def metadataTextMatch (md : ExifMetadata) (device_type : Option String) :
    Option (String × String) :=
  let t := allText md
  if pyContains t "d-cinelike" || pyContains t "d_cinelike" then
    if device_type ≠ some "DJI Mavic 2 Pro" then some ("d_cinelike", "metadata")
    else none
  else if pyContains t "d-log" || pyContains t "d_log" then some ("d_log", "metadata")
  else if pyContains t "hlg" then some ("hlg", "metadata")
  else none

/-- Step 2's substring checks over the lowercased SRT text
(lines 646-655). -/
def srtProfileMatch (srt_content : String) : Option String :=
  let c := toLowerStr srt_content
  if pyContains c "[color_md : d_cinelike]" || pyContains c "d-cinelike" then some "d_cinelike"
  else if pyContains c "[color_md : d_log]" || pyContains c "d-log" then some "d_log"
  else if pyContains c "[color_md : hlg]" || pyContains c "hlg" then some "hlg"
  else none

/-- The `(color_profile, profile_source)` state after step 1
(lines 605-630): the default pair unless the metadata dictionary is
present and the text matcher assigned. -/
def afterStep1 (metadata : Option ExifMetadata) (device_type : Option String) :
    String × String :=
  match metadata with
  | none => ("normal", "default")
  | some md =>
    match metadataTextMatch md device_type with
    | some r => r
    | none => ("normal", "default")

/-- The state after step 2 (lines 632-659): when still at the default and
the device is known, consult the companion SRT file; a missing file or a
read error (caught at lines 656-657) leaves the state unchanged. -/
def afterStep2 (metadata : Option ExifMetadata) (srtFile : Option (Except Unit String))
    (device_type : Option String) : String × String :=
  let st := afterStep1 metadata device_type
  if st.2 = "default" && deviceTruthy device_type then
    match srtFile with
    | some (.ok content) =>
      match srtProfileMatch content with
      | some p => (p, "SRT")
      | none => st
    | some (.error _) => st
    | none => st
  else st

/-- `detect_color_profile_from_all_sources` (lines 588-680): steps 1 and 2,
then — when still at the default with a known device — the content-analysis
phase (step 3, lines 661-672): a raised error is caught and the state kept;
a falsy (empty) result is not assigned either. Always returns a
`(profile, source)` pair. -/
def detect_color_profile_from_all_sources (metadata : Option ExifMetadata)
    (srtFile : Option (Except Unit String)) (device_type : Option String)
    (contentDetect : Except Unit String) : String × String :=
  let st := afterStep2 metadata srtFile device_type
  if st.2 = "default" && deviceTruthy device_type then
    match contentDetect with
    | .ok p => if p.isEmpty then st else (p, "content analysis")
    | .error _ => st
  else st

/-- `detect_color_profile` (lines 561-586): an unsupported device type, or
any exception out of the `detect_profile` run (abstracted as `rawDetect`),
yields the normal profile; the whole body sits in a `try`/`except` that
returns `"normal"`. -/
def detect_color_profile (device_type : String) (rawDetect : Except Unit String) : String :=
  if (DEVICES.map Prod.fst).contains device_type then
    match rawDetect with
    | .ok p => p
    | .error _ => "normal"
  else "normal"

/-- The device sniffing shared by `detect_device_from_video` (lines 96-103)
and `detect_device_type` (lines 721-728): ordered substring checks against
the `Model` and `Encoder` fields; `none` when nothing is recognized
(lines 107-114 / 733-739 return `None` with a warning). -/
def detect_device_type (model encoder : String) : Option String :=
  if pyContains model "DJI Mini 3 Pro" || pyContains encoder "Mini 3 Pro" then
    some "DJI Mini 3 Pro"
  else if pyContains model "Mavic 2 Pro" || pyContains encoder "Mavic 2 Pro" then
    some "DJI Mavic 2 Pro"
  else if pyContains encoder "OsmoAction5 Pro" || pyContains encoder "Osmo Action 5 Pro"
      || pyContains model "Action 5" then
    some "DJI Osmo Action 5 Pro"
  else none

/-- `detect_device_from_video` (lines 57-127) for a video whose exiftool
metadata was read: when no device is recognized it returns `(None, None)`
immediately (line 114) and the profile cascade is never entered; otherwise
the cascade runs for the detected device. -/
def detect_device_from_video (md : ExifMetadata) (srtFile : Option (Except Unit String))
    (contentDetect : Except Unit String) : Option String × Option String :=
  match detect_device_type md.model md.encoder with
  | none => (none, none)
  | some d =>
    let r := detect_color_profile_from_all_sources (some md) srtFile (some d) contentDetect
    (some d, some r.1)

/-! ## Theorems -/

/-- Decidable equality for `Except`, used to evaluate concrete runs. -/
instance {ε α : Type} [DecidableEq ε] [DecidableEq α] : DecidableEq (Except ε α) :=
  fun a b =>
    match a, b with
    | .ok x, .ok y =>
      if h : x = y then .isTrue (by rw [h]) else .isFalse fun hh => h (Except.ok.inj hh)
    | .error x, .error y =>
      if h : x = y then .isTrue (by rw [h]) else .isFalse fun hh => h (Except.error.inj hh)
    | .ok _, .error _ => .isFalse fun hh => Except.noConfusion hh
    | .error _, .ok _ => .isFalse fun hh => Except.noConfusion hh

lemma findMatch_eq (l : List (String × List Rule)) (stats : List (String × ℚ)) :
    findMatch l stats = (l.find? fun pc => check_all_conditions pc.2 stats).map Prod.fst := by
  induction l with
  | nil => rfl
  | cons a l ih =>
    obtain ⟨p, conds⟩ := a
    by_cases h : check_all_conditions conds stats = true
    · simp [findMatch, List.find?_cons, h]
    · simp only [Bool.not_eq_true] at h
      simp [findMatch, List.find?_cons, h, ih]

lemma lookup_check_iff (stats : List (String × ℚ)) (nc : String × Condition) :
    (match lookupStat stats nc.1 with
     | none => false
     | some v => check_condition v nc.2) = true ↔
      ∃ v, lookupStat stats nc.1 = some v ∧ check_condition v nc.2 = true := by
  cases h : lookupStat stats nc.1 <;> simp [h]

lemma check_condition_iff (v : ℚ) (c : Condition) :
    check_condition v c = true ↔
      (∀ m, c.min = some m → m ≤ v) ∧ (∀ M, c.max = some M → v ≤ M) := by
  obtain ⟨mi, ma⟩ := c
  cases mi <;> cases ma <;>
    simp [check_condition, belowMin, aboveMax, not_lt]

/-- C1: for every device detection configuration, bit-depth class pick and
normalized statistics sample, the classifier returns the first profile (in
declared order) one of whose rules (in declared order) is satisfied, and
otherwise — in particular whenever the rule set is empty — the bit-depth
class default; a rule is satisfied exactly when each constraint it declares
holds inclusively (`min ≤ value` and `value ≤ max`) for the corresponding
statistic of the sample. The function is total: it never yields
"no match". -/
theorem classifyFromStats_first_match_default (detection : DetectionSettings)
    (bit_depth : Nat) (norm_stats : List (String × ℚ)) :
    (classifyFromStats detection bit_depth norm_stats =
      ((((bitSettingsFor detection bit_depth).profiles.find?
            fun pc => check_all_conditions pc.2 norm_stats).map Prod.fst).getD
        (bitSettingsFor detection bit_depth).default))
    ∧ (∀ conds : List Rule, check_all_conditions conds norm_stats = true ↔
        ∃ rule ∈ conds, ∀ nc ∈ rule, ∃ v,
          lookupStat norm_stats nc.1 = some v ∧ check_condition v nc.2 = true)
    ∧ (∀ (v : ℚ) (c : Condition), check_condition v c = true ↔
        (∀ m, c.min = some m → m ≤ v) ∧ (∀ M, c.max = some M → v ≤ M)) := by
  refine ⟨?_, fun conds => ?_, fun v c => check_condition_iff v c⟩
  · simp only [classifyFromStats]
    rw [findMatch_eq]
    cases hp : (bitSettingsFor detection bit_depth).profiles with
    | nil => simp [hp]
    | cons a l =>
      cases hf : List.find? (fun pc => check_all_conditions pc.2 norm_stats) (a :: l) <;>
        simp [hp, hf]
  · cases conds with
    | nil => simp [check_all_conditions]
    | cons r rs =>
      rw [check_all_conditions, if_neg (by simp)]
      rw [List.any_eq_true]
      refine exists_congr fun rule => and_congr_right fun _ => ?_
      rw [List.all_eq_true]
      exact forall_congr' fun nc => forall_congr' fun _ => lookup_check_iff norm_stats nc

/-- C1 witness: the classifier at the DJI Mavic 2 Pro 10-bit configuration
on the sample `p90y = 0.70`, `satavg = 0.20`, `yavg = 0.40` (it picks
`d_log`), instantiating the first-match characterization. -/
theorem classifyFromStats_first_match_default_witness :
    classifyFromStats (DEVICES.get ⟨1, by decide⟩).2.detection 10
        (normStats 0.70 0.20 0.40 1) =
      ((((bitSettingsFor (DEVICES.get ⟨1, by decide⟩).2.detection 10).profiles.find?
            fun pc => check_all_conditions pc.2 (normStats 0.70 0.20 0.40 1)).map
          Prod.fst).getD
        (bitSettingsFor (DEVICES.get ⟨1, by decide⟩).2.detection 10).default) :=
  (classifyFromStats_first_match_default (DEVICES.get ⟨1, by decide⟩).2.detection 10
    (normStats 0.70 0.20 0.40 1)).1

/-- C9: every profile identifier referenced in a device's detection
configuration — a bit-depth-class default or a rule-set key — is also a
member of that device's supported-profiles set. -/
theorem catalog_detection_profiles_supported :
    ∀ e ∈ DEVICES, ∀ p ∈ referencedProfiles e.2, p ∈ e.2.profiles := by decide

/-- C9 witness: the DJI Mini 3 Pro's 8-bit default profile `normal` is
indeed among its supported profiles. -/
theorem catalog_detection_profiles_supported_witness :
    "normal" ∈ (DEVICES.get ⟨0, by decide⟩).2.profiles :=
  catalog_detection_profiles_supported (DEVICES.get ⟨0, by decide⟩)
    (List.get_mem DEVICES 0 (by decide)) "normal" (by decide)

lemma check_all_of_empty_rule (conds : List Rule) (stats : List (String × ℚ))
    (h : ([] : Rule) ∈ conds) : check_all_conditions conds stats = true := by
  cases conds with
  | nil => simp at h
  | cons r rs =>
    rw [check_all_conditions, if_neg (by simp), List.any_eq_true]
    exact ⟨[], h, rfl⟩

lemma findMatch_append_mem (pre post : List (String × List Rule)) (p : String)
    (conds : List Rule) (stats : List (String × ℚ))
    (h : check_all_conditions conds stats = true) :
    ∃ q ∈ pre.map Prod.fst ++ [p], findMatch (pre ++ (p, conds) :: post) stats = some q := by
  induction pre with
  | nil => exact ⟨p, by simp, by simp [findMatch, h]⟩
  | cons a l ih =>
    obtain ⟨b, conds2⟩ := a
    by_cases h2 : check_all_conditions conds2 stats = true
    · exact ⟨b, by simp, by simp [findMatch, h2]⟩
    · obtain ⟨q, hq, hfm⟩ := ih
      refine ⟨q, by simpa using Or.inr (by simpa using hq), ?_⟩
      simp only [Bool.not_eq_true] at h2
      simpa [findMatch, h2] using hfm

/-- C10: a rule declaring no constraints is satisfied by every sample, so
once a profile with such a rule appears in the active bit-depth rule set,
the classifier's answer is that profile or an earlier-declared one for
every possible sample — the class default can no longer be reached. -/
theorem classifyFromStats_empty_rule_short_circuit (detection : DetectionSettings)
    (bit_depth : Nat) (norm_stats : List (String × ℚ))
    (pre post : List (String × List Rule)) (p : String) (conds : List Rule)
    (hp : (bitSettingsFor detection bit_depth).profiles = pre ++ (p, conds) :: post)
    (he : ([] : Rule) ∈ conds) :
    classifyFromStats detection bit_depth norm_stats ∈ pre.map Prod.fst ++ [p] := by
  obtain ⟨q, hq, hfm⟩ :=
    findMatch_append_mem pre post p conds norm_stats
      (check_all_of_empty_rule conds norm_stats he)
  simp only [classifyFromStats]
  rw [hp, hfm]
  simpa [List.isEmpty_iff] using hq

/-- C10 witness: a configuration whose second 10-bit profile `b` carries an
empty rule; on a sample rejecting profile `a`'s rule the classifier indeed
lands inside the first two declared profiles. -/
theorem classifyFromStats_empty_rule_short_circuit_witness :
    classifyFromStats
        { eightBit := { default := "normal", profiles := [] },
          tenBit :=
            { default := "normal",
              profiles := [("a", [[("p90y", { min := some (1/2) })]]), ("b", [[]])] } }
        10 [("p90y", 0)] ∈ ["a", "b"] := by
  have h :=
    classifyFromStats_empty_rule_short_circuit
      { eightBit := { default := "normal", profiles := [] },
        tenBit :=
          { default := "normal",
            profiles := [("a", [[("p90y", { min := some (1/2) })]]), ("b", [[]])] } }
      10 [("p90y", 0)] [("a", [[("p90y", { min := some (1/2) })]])] [] "b" [[]]
      rfl (by decide)
  simpa using h

lemma detect_from_metadata_ne_dcinelike (cp ct : Option String) :
    detect_from_metadata cp ct ≠ some "d_cinelike" := by
  cases cp with
  | none => simp [detect_from_metadata]
  | some p =>
    cases ct with
    | none => simp [detect_from_metadata]
    | some t =>
      simp only [detect_from_metadata]
      by_cases he : (p.isEmpty || t.isEmpty) = true
      · simp [he]
      · rw [if_neg he]
        cases hf : METADATA_PROFILE_MAPPING.find?
            fun e => e.1 = (toLowerStr p, toLowerStr t) with
        | none => simp
        | some e =>
          have hm := List.mem_of_find?_eq_some hf
          have : e.2 ≠ some "d_cinelike" := by
            simp only [METADATA_PROFILE_MAPPING, List.mem_cons, List.not_mem_nil,
              or_false] at hm
            rcases hm with h | h | h <;> simp [h]
          simpa using this

/-- C4: whenever a D-Cinelike token (`d-cinelike` or `d_cinelike`) occurs
in the concatenated metadata text and the requesting device is the DJI
Mavic 2 Pro, the metadata-text matcher never produces the D-Cinelike
profile; and the container-metadata detector likewise never produces it
for that device, whatever the DJI color-mode tag says — the device veto
takes precedence over the substring hit. -/
theorem mavic2pro_dcinelike_veto :
    (∀ md : ExifMetadata,
      (pyContains (allText md) "d-cinelike" || pyContains (allText md) "d_cinelike") = true →
      ∀ src, metadataTextMatch md (some "DJI Mavic 2 Pro") ≠ some ("d_cinelike", src))
    ∧ ∀ vm : VideoMetadata,
        detect_profile_from_metadata vm (some "DJI Mavic 2 Pro") ≠ some "d_cinelike" := by
  constructor
  · intro md h src
    simp only [metadataTextMatch]
    rw [if_pos h, if_neg (by simp)]
    simp
  · intro vm
    cases hc : vm.dji_color_mode with
    | none => simpa [detect_profile_from_metadata, hc] using
        detect_from_metadata_ne_dcinelike vm.color_primaries vm.color_transfer
    | some cm =>
      simp only [detect_profile_from_metadata, hc]
      by_cases h1 : pyContains (toUpperStr cm) "D-CINELIKE" = true
      · simp [h1]
      · rw [if_neg h1]
        by_cases h2 : pyContains (toUpperStr cm) "NORMAL" = true
        · simp [h2]
        · rw [if_neg h2]
          exact detect_from_metadata_ne_dcinelike vm.color_primaries vm.color_transfer

/-- C4 witness: metadata whose comment field literally contains
`d-cinelike`, queried for the DJI Mavic 2 Pro: no D-Cinelike result. -/
theorem mavic2pro_dcinelike_veto_witness :
    metadataTextMatch { comment := "shot in d-cinelike" } (some "DJI Mavic 2 Pro") ≠
      some ("d_cinelike", "metadata") :=
  mavic2pro_dcinelike_veto.1 { comment := "shot in d-cinelike" } (by decide) "metadata"

/-- C5: when neither the `Model` nor the `Encoder` metadata field contains
a known device substring, device detection reports no device, and
`detect_device_from_video` returns `(None, None)` whatever the companion
file or the content analyzer would have said — the profile cascade is
never entered and no statistical or default device fallback exists. -/
theorem unknown_device_detection_hard_stop (md : ExifMetadata)
    (srtFile : Option (Except Unit String)) (contentDetect : Except Unit String)
    (h1 : pyContains md.model "DJI Mini 3 Pro" = false)
    (h2 : pyContains md.encoder "Mini 3 Pro" = false)
    (h3 : pyContains md.model "Mavic 2 Pro" = false)
    (h4 : pyContains md.encoder "Mavic 2 Pro" = false)
    (h5 : pyContains md.encoder "OsmoAction5 Pro" = false)
    (h6 : pyContains md.encoder "Osmo Action 5 Pro" = false)
    (h7 : pyContains md.model "Action 5" = false) :
    detect_device_type md.model md.encoder = none ∧
      detect_device_from_video md srtFile contentDetect = (none, none) := by
  have hd : detect_device_type md.model md.encoder = none := by
    simp [detect_device_type, h1, h2, h3, h4, h5, h6, h7]
  exact ⟨hd, by simp [detect_device_from_video, hd]⟩

/-- C5 witness: a non-DJI camera's metadata with an SRT file present and a
content analyzer that would answer `d_log`: device detection still reports
`(None, None)`. -/
theorem unknown_device_detection_hard_stop_witness :
    detect_device_from_video { model := "Canon EOS R5", encoder := "Lavf58.29.100" }
        (some (.ok "[color_md : d_log]")) (.ok "d_log") = (none, none) :=
  (unknown_device_detection_hard_stop { model := "Canon EOS R5", encoder := "Lavf58.29.100" }
    (some (.ok "[color_md : d_log]")) (.ok "d_log") (by decide) (by decide) (by decide)
    (by decide) (by decide) (by decide) (by decide)).2

/-- C6: the content-analysis phase never propagates an exception: when the
`detect_profile` run errors, the orchestrator's result is exactly its
pre-content-analysis state (ultimately the default profile pair), and
`detect_color_profile` itself answers `normal` on an internal error; in
all cases a `(profile, source)` pair is returned. -/
theorem content_analysis_never_fails_outward :
    (∀ (metadata : Option ExifMetadata) (srtFile : Option (Except Unit String))
       (device_type : Option String),
      detect_color_profile_from_all_sources metadata srtFile device_type (.error ()) =
        afterStep2 metadata srtFile device_type)
    ∧ ∀ device_type : String, detect_color_profile device_type (.error ()) = "normal" := by
  constructor
  · intro m s d
    simp only [detect_color_profile_from_all_sources]
    split <;> rfl
  · intro d
    simp only [detect_color_profile]
    split <;> rfl

lemma scanLoop_eq_foldl (target : ℚ) (lines : List String) :
    ∀ b : Option Best,
      scanLoop target lines b = (candidates target lines).map fun cs => cs.foldl updBest b := by
  induction lines with
  | nil => intro b; rfl
  | cons l rest ih =>
    intro b
    by_cases hc : pyContains l " --> " = true
    · cases hm : parseMarkerTime l with
      | none => simp [scanLoop, candidates, hc, hm, Except.map]
      | some t =>
        cases hts : (scanTele (rest.take 5) none).2 with
        | none =>
          simp only [scanLoop, candidates, hc, if_true, hm, hts]
          exact ih b
        | some tl =>
          have hupd := ih (updBest b ⟨abs (t - target), tl, (scanTele (rest.take 5) none).1⟩)
          cases hcr : candidates target rest with
          | error e =>
            simp only [scanLoop, candidates, hc, if_true, hm, hts, hcr, Except.map] at hupd ⊢
            cases b <;> simpa [updBest] using hupd
          | ok cs =>
            simp only [scanLoop, candidates, hc, if_true, hm, hts, hcr, Except.map] at hupd ⊢
            cases b <;> simpa [updBest] using hupd
    · simp only [Bool.not_eq_true] at hc
      simp only [scanLoop, candidates, hc]
      exact ih b

/-- C7: the scan replaces its best candidate only on a strictly smaller
time difference (`updBest`), so in a log whose candidate list consists of
two parsable records at the same absolute distance from the target (within
tolerance), the record seen first in the log is the one returned. -/
theorem telemetry_equal_distance_first_seen (lines : List String) (target : ℚ)
    (now : String) (c1 c2 : Best) (caps : Caps) (t : Telemetry)
    (hc : candidates target lines = .ok [c1, c2])
    (heq : c1.diff = c2.diff)
    (hw : c1.diff ≤ window)
    (hre : reSearch tele_re c1.tele = some caps)
    (hmk : mkTelemetry caps (c1.date.getD now) now = some t) :
    find_srt_telemetry lines target now = .ok (some t) := by
  have hscan : scanLoop target lines none = .ok (some c1) := by
    rw [scanLoop_eq_foldl, hc]
    simp [Except.map, updBest, heq]
  simp only [find_srt_telemetry, hscan]
  rw [if_neg (not_lt.mpr hw)]
  simp only [hre, hmk]

/-- The log of the C7 witness: two telemetry records at 9.9 s and 10.1 s,
both 0.1 s away from the target 10 s. -/
def telemetryLogTie : List String :=
  ["1",
   "00:00:09,900 --> 00:00:10,900",
   "[iso:100][shutter:1/100.0][fnum:170][ev:0][focal_len:240][latitude:1.000000][longitude:2.000000][abs_alt:3.000000]",
   "2",
   "00:00:10,100 --> 00:00:11,100",
   "[iso:200][shutter:1/200.0][fnum:280][ev:0][focal_len:120][latitude:-1.000000][longitude:-2.000000][abs_alt:4.000000]"]

set_option maxRecDepth 100000 in
/-- C7 witness: on `telemetryLogTie` at target 10 s the lookup answers with
the first record (ISO 100), not the equally distant second one. -/
theorem telemetry_equal_distance_first_seen_witness :
    find_srt_telemetry telemetryLogTie 10 "2000-01-01 00:00:00" =
      .ok (some { iso := "100", shutter := "1/100", fnumber := 17/10, ev := "0",
                  focal_length := 24, latitude := "1.000000", latitude_ref := "N",
                  longitude := "2.000000", longitude_ref := "E",
                  altitude := some "3.000000", altitude_ref := "0",
                  datetime := "2000-01-01 00:00:00",
                  date_str := "2000:01:01 00:00:00" }) :=
  telemetry_equal_distance_first_seen telemetryLogTie 10 "2000-01-01 00:00:00"
    ⟨1/10,
     "[iso:100][shutter:1/100.0][fnum:170][ev:0][focal_len:240][latitude:1.000000][longitude:2.000000][abs_alt:3.000000]",
     none⟩
    ⟨1/10,
     "[iso:200][shutter:1/200.0][fnum:280][ev:0][focal_len:120][latitude:-1.000000][longitude:-2.000000][abs_alt:4.000000]",
     none⟩
    [("iso", "100"), ("shut", "1/100.0"), ("fnum", "170"), ("ev", "0"), ("flen", "240"),
     ("lat", "1.000000"), ("lon", "2.000000"), ("abs_alt", "3.000000")]
    _
    (by with_unfolding_all decide) (by with_unfolding_all decide)
    (by with_unfolding_all decide) (by with_unfolding_all decide)
    (by with_unfolding_all decide)

/-- The log of the C2 scenario: exactly one parsable telemetry record whose
time-range marker starts at second 10.0. -/
def telemetryLogSingle : List String :=
  ["1",
   "00:00:10,000 --> 00:00:11,000",
   "2024-05-01 12:00:00",
   "[iso : 100] [shutter : 1/500.0] [fnum : 170] [ev : 0] [focal_len : 240] [latitude : 45.123456] [longitude : -122.654321] [abs_alt : 100.500000]",
   ""]

set_option maxRecDepth 100000 in
/-- C2: on a log with exactly one parsable record whose marker starts at
10.0 s, under the default 0.20 s tolerance, the lookup at 10.15 s
(`parse_timestamp "00:00:10.150"`) returns that record and the lookup at
10.30 s returns the soft "not found" (`ok none`), not an error. -/
theorem telemetry_lookup_tolerance_scenario :
    parse_timestamp "00:00:10.150" = some (203/20)
    ∧ parse_timestamp "00:00:10.300" = some (103/10)
    ∧ find_srt_telemetry telemetryLogSingle (203/20) "2000-01-01 00:00:00" =
        .ok (some { iso := "100", shutter := "1/500", fnumber := 17/10, ev := "0",
                    focal_length := 24, latitude := "45.123456", latitude_ref := "N",
                    longitude := "-122.654321", longitude_ref := "W",
                    altitude := some "100.500000", altitude_ref := "0",
                    datetime := "2024-05-01 12:00:00",
                    date_str := "2024:05:01 12:00:00" })
    ∧ find_srt_telemetry telemetryLogSingle (103/10) "2000-01-01 00:00:00" = .ok none := by
  with_unfolding_all decide

/-- C3 counterexample: a log whose only line contains the marker separator
`' --> '` but is not a well-formed time-range line makes the lookup raise
`MetadataError` (the scan's `ValueError` reaches the `except` at line 156)
even though the log was read without any I/O failure — so a `MetadataError`
does not imply a structural I/O failure. -/
theorem telemetry_marker_parse_metadata_error :
    find_srt_telemetry ["a --> b"] 0 "2000-01-01 00:00:00" = .error () := by
  with_unfolding_all decide

/-- C3 (amended): the lookup errors exactly as the scan does — on a marker
line that fails to parse (besides out-of-model structural I/O failure) —
and for every log whose scan succeeds with a best candidate inside the
tolerance window whose telemetry line the record pattern does not match,
the result is the soft `ok none`, never an error. -/
theorem telemetry_unrecognized_line_soft (lines : List String) (target : ℚ) (now : String) :
    (scanLoop target lines none = .error () →
      find_srt_telemetry lines target now = .error ())
    ∧ ∀ b : Best, scanLoop target lines none = .ok (some b) → ¬b.diff > window →
        reSearch tele_re b.tele = none →
        find_srt_telemetry lines target now = .ok none := by
  constructor
  · intro h
    simp only [find_srt_telemetry, h]
  · intro b h hb hre
    simp only [find_srt_telemetry, h]
    rw [if_neg hb]
    simp only [hre]

set_option maxRecDepth 100000 in
/-- C3 witness: a log whose best candidate (distance 0) carries a
telemetry line starting with `[iso` that the record pattern rejects: the
lookup answers `ok none`. -/
theorem telemetry_unrecognized_line_soft_witness :
    find_srt_telemetry ["00:00:10,000 --> 00:00:11,000", "[iso : garbage"] 10
      "2000-01-01 00:00:00" = .ok none :=
  (telemetry_unrecognized_line_soft ["00:00:10,000 --> 00:00:11,000", "[iso : garbage"]
      10 "2000-01-01 00:00:00").2
    ⟨0, "[iso : garbage", none⟩
    (by with_unfolding_all decide) (by with_unfolding_all decide)
    (by with_unfolding_all decide)

/-- C8: telemetry numeric conversions are exact decimal arithmetic: for
every telemetry record built from matched groups (all groups present and
decimal-parsable, as `tele_re` guarantees), the f-number is exactly the
source number divided by 100 (`fnumber * 100` recovers it exactly), the
focal length exactly the source number divided by 10, and the hemisphere
references are `N`/`E` exactly for non-negative parsed latitude/longitude,
`S`/`W` otherwise; concretely source text `"170"` yields exactly `1.70`
and `"240"` exactly `24.0`. -/
theorem telemetry_exact_decimal_conversions :
    (∀ (caps : Caps) (date_line now : String) (t : Telemetry)
       (iso shut fnum ev flen lat lon alt : String) (fq flq laq loq aq : ℚ),
      getGroup caps "iso" = some iso →
      getGroup caps "shut" = some shut →
      getGroup caps "fnum" = some fnum →
      getGroup caps "ev" = some ev →
      getGroup caps "flen" = some flen →
      getGroup caps "lat" = some lat →
      getGroup caps "lon" = some lon →
      getGroup caps "abs_alt" = some alt →
      alt.isEmpty = false →
      pyDecimal fnum = some fq →
      pyDecimal flen = some flq →
      pyDecimal lat = some laq →
      pyDecimal lon = some loq →
      pyDecimal alt = some aq →
      mkTelemetry caps date_line now = some t →
      t.fnumber = fq / 100 ∧ t.fnumber * 100 = fq ∧
        t.focal_length = flq / 10 ∧ t.focal_length * 10 = flq ∧
        t.latitude_ref = (if 0 ≤ laq then "N" else "S") ∧
        t.longitude_ref = (if 0 ≤ loq then "E" else "W"))
    ∧ (pyDecimal "170").map (· / 100) = some (17/10)
    ∧ (pyDecimal "240").map (· / 10) = some 24 := by
  refine ⟨?_, by with_unfolding_all decide, by with_unfolding_all decide⟩
  intro caps date_line now t iso shut fnum ev flen lat lon alt fq flq laq loq aq
  intro h1 h2 h3 h4 h5 h6 h7 h8 h9 h10 h11 h12 h13 h14 hm
  unfold mkTelemetry at hm
  rw [h1, h2, h3, h4, h5, h6, h7, h8] at hm
  dsimp only [] at hm
  rw [if_neg (show ¬(alt.isEmpty = true) by simp [h9])] at hm
  rw [h10, h11, h12, h13] at hm
  rw [show altitudeRef (some alt) = some (if 0 ≤ aq then "0" else "1") from by
    simp [altitudeRef, h14]] at hm
  dsimp only [] at hm
  obtain rfl := (Option.some.inj hm).symm
  refine ⟨rfl, ?_, rfl, ?_, rfl, rfl⟩ <;> field_simp

set_option maxRecDepth 100000 in
/-- C8 witness: concrete groups with f-number text `170`, focal-length
text `240`, positive latitude and negative longitude, instantiating the
exactness statement. -/
theorem telemetry_exact_decimal_conversions_witness :
    (1.70 : ℚ) = 170 / 100 ∧ (1.70 : ℚ) * 100 = 170 ∧
      (24.0 : ℚ) = 240 / 10 ∧ (24.0 : ℚ) * 10 = 240 ∧
      "N" = (if (0 : ℚ) ≤ 45.5 then "N" else "S") ∧
      "W" = (if (0 : ℚ) ≤ -122.5 then "E" else "W") := by
  have h := telemetry_exact_decimal_conversions.1
    [("iso", "100"), ("shut", "1/500.0"), ("fnum", "170"), ("ev", "0"), ("flen", "240"),
     ("lat", "45.5"), ("lon", "-122.5"), ("abs_alt", "10.0")]
    "2024-05-01 12:00:00" "2000-01-01 00:00:00"
    { iso := "100", shutter := "1/500", fnumber := 1.70, ev := "0",
      focal_length := 24.0, latitude := "45.5", latitude_ref := "N",
      longitude := "-122.5", longitude_ref := "W",
      altitude := some "10.0", altitude_ref := "0",
      datetime := "2024-05-01 12:00:00", date_str := "2024:05:01 12:00:00" }
    "100" "1/500.0" "170" "0" "240" "45.5" "-122.5" "10.0"
    170 240 45.5 (-122.5) 10
    (by with_unfolding_all decide) (by with_unfolding_all decide)
    (by with_unfolding_all decide) (by with_unfolding_all decide)
    (by with_unfolding_all decide) (by with_unfolding_all decide)
    (by with_unfolding_all decide) (by with_unfolding_all decide)
    (by with_unfolding_all decide) (by with_unfolding_all decide)
    (by with_unfolding_all decide) (by with_unfolding_all decide)
    (by with_unfolding_all decide) (by with_unfolding_all decide)
    (by with_unfolding_all decide)
  simpa using h
